import Mathlib

/-!
# Verification of the booking-server payment reconciliation logic

Shallow embedding of `src/dev-server.js`: the invoice-creation endpoint
(`POST /create-checkout-session`), the manual verification endpoint
(`GET /verify-payment/:invoice_id`) and the webhook endpoint
(`POST /webhook`), together with the booking-store update they perform.

JavaScript strings are modelled as Lean `String`; the two string
operations the source uses (`String.prototype.split` with a one-character
separator, `String.prototype.startsWith`) are defined below on the
underlying character lists, matching the JavaScript semantics.
An absent (`undefined`/`null`) value is modelled as `Option.none`; the
JavaScript truthiness test `if (x)` on a nullable string is
`x ≠ null ∧ x ≠ ""`.

The Supabase store is modelled as a list of booking rows; the call
`supabase.from('bookings').update({...}).eq('id', bookingId)` becomes a
map over the rows setting the two fields on every row whose `id` matches.
Whether that call returns an `error` is an input of the handler models
(`storeErr`); an erroring update leaves the store unchanged.
-/

namespace BookingServer

/-- JavaScript `s.split(sep)` for a one-character separator, on the
character list.  `"".split(sep)` is `[""]`; a trailing separator yields a
trailing empty segment, exactly as in JavaScript. -/
def jsSplitList (sep : Char) : List Char → List (List Char)
  | [] => [[]]
  | c :: cs =>
    if c = sep then [] :: jsSplitList sep cs
    else
      match jsSplitList sep cs with
      | [] => [[c]]
      | r :: rs => (c :: r) :: rs

/-- JavaScript `s.split(sep)` on `String`. -/
def jsSplit (sep : Char) (s : String) : List String :=
  (jsSplitList sep s.data).map String.mk

/-- JavaScript `s.startsWith(p)`. -/
def jsStartsWith (s p : String) : Bool :=
  p.data.isPrefixOf s.data

/-- Booking-id extraction as performed by `GET /verify-payment/:invoice_id`
(src/dev-server.js lines 100–103):

```js
let booking_id = null;
if (invoice.external_id && invoice.external_id.startsWith('booking_')) {
  booking_id = invoice.external_id.split('_')[1];
}
```

`none` models both JavaScript `null` and `undefined` (an out-of-range
index yields `undefined`, which the subsequent truthiness test treats
like `null`). -/
def extractBookingIdVerify : Option String → Option String
  | none => none
  | some s =>
    if s = "" then none
    else if jsStartsWith s "booking_" then (jsSplit '_' s)[1]?
    else none

/-- Booking-id extraction as performed by `POST /webhook`
(src/dev-server.js lines 149–154), which additionally checks
`parts.length >= 2` before indexing:

```js
if (event.external_id && event.external_id.startsWith('booking_')) {
  const parts = event.external_id.split('_');
  if (parts.length >= 2) { booking_id = parts[1]; }
}
``` -/
def extractBookingIdWebhook : Option String → Option String
  | none => none
  | some s =>
    if s = "" then none
    else if jsStartsWith s "booking_" then
      let parts := jsSplit '_' s
      if parts.length ≥ 2 then parts[1]? else none
    else none

/-- A row of the `bookings` table; only the columns this system touches. -/
structure BookingRow where
  id : String
  payment_status : String
  status : String
deriving Repr, DecidableEq

/-- Model of `supabase.from('bookings').update({ payment_status: 'Paid',
status: 'Confirmed' }).eq('id', bookingId)`: set the two fields on every
row whose primary key matches. -/
def updateBookings (store : List BookingRow) (bookingId : String) :
    List BookingRow :=
  store.map fun r =>
    if r.id = bookingId then
      { r with payment_status := "Paid", status := "Confirmed" }
    else r

/-- A payment event / fetched invoice: the fields the source reads
(`status`, `external_id`) plus representative fields the handlers never
read (`amount`, `metadata`, `remarks`, `timestamp`), kept to state
noninterference. -/
structure PaymentEvent where
  status : String
  external_id : Option String
  amount : Option Nat
  metadata : Option String
  remarks : Option String
  timestamp : Option Nat
deriving Repr, DecidableEq

/-- Response body of `GET /verify-payment/:invoice_id`. -/
inductive VerifyBody where
  | paid (booking_id : String)
  | statusOnly (status : String)
deriving Repr, DecidableEq

/-- Outcome of the verify-payment handler: HTTP status, body, store. -/
structure VerifyOutcome where
  httpStatus : Nat
  body : VerifyBody
  store : List BookingRow
deriving Repr, DecidableEq

/-- Model of `GET /verify-payment/:invoice_id` (src/dev-server.js lines 98–118),
after the invoice has been fetched from the provider.  `storeErr` is
whether the Supabase update returns an error; the source only logs that
error (`if (error) console.error(...)`) and still responds
`res.json({ status: 'PAID', booking_id })`, i.e. HTTP 200. -/
def verifyPaymentHandler (invoice : PaymentEvent) (storeErr : Bool)
    (store : List BookingRow) : VerifyOutcome :=
  if invoice.status = "PAID" then
    match extractBookingIdVerify invoice.external_id with
    | some bid =>
      if bid ≠ "" then
        if storeErr then
          { httpStatus := 200, body := VerifyBody.paid bid, store := store }
        else
          { httpStatus := 200, body := VerifyBody.paid bid,
            store := updateBookings store bid }
      else
        { httpStatus := 200, body := VerifyBody.statusOnly invoice.status,
          store := store }
    | none =>
      { httpStatus := 200, body := VerifyBody.statusOnly invoice.status,
        store := store }
  else
    { httpStatus := 200, body := VerifyBody.statusOnly invoice.status,
      store := store }

/-- Outcome of the webhook handler: HTTP status, store, and whether the
`console.warn('No booking_id found...')` unresolved log fired. -/
structure WebhookOutcome where
  httpStatus : Nat
  store : List BookingRow
  loggedUnresolved : Bool
deriving Repr, DecidableEq

/-- Model of `POST /webhook` (src/dev-server.js lines 126–186).  On a PAID event
with a truthy extracted booking id, the Supabase update runs; if it
returns an error the handler responds `res.status(500)`, otherwise it
falls through to `res.sendStatus(200)`.  A falsy booking id is logged
(`console.warn`) and acknowledged with 200; a non-PAID status is a
pass-through 200. -/
def webhookHandler (event : PaymentEvent) (storeErr : Bool)
    (store : List BookingRow) : WebhookOutcome :=
  if event.status = "PAID" then
    match extractBookingIdWebhook event.external_id with
    | some bid =>
      if bid ≠ "" then
        if storeErr then
          { httpStatus := 500, store := store, loggedUnresolved := false }
        else
          { httpStatus := 200, store := updateBookings store bid,
            loggedUnresolved := false }
      else
        { httpStatus := 200, store := store, loggedUnresolved := true }
    | none =>
      { httpStatus := 200, store := store, loggedUnresolved := true }
  else
    { httpStatus := 200, store := store, loggedUnresolved := false }

/-- Request body of `POST /create-checkout-session`. -/
structure CreateCheckoutRequest where
  booking_id : String
  amount : Nat
  description : Option String
  remarks : Option String
  customer_email : String
deriving Repr, DecidableEq

/-- The part of the Xendit invoice payload this verification tracks
(src/dev-server.js lines 42–66); `external_id` is
``booking_${booking_id}_${Date.now()}``. -/
structure XenditPayload where
  external_id : String
  amount : Nat
  description : String
  customer_email : String
deriving Repr, DecidableEq

/-- Build the Xendit invoice payload; `now` is `Date.now()`, a natural
number stringified in decimal. -/
def buildXenditPayload (req : CreateCheckoutRequest) (now : Nat) :
    XenditPayload :=
  { external_id := "booking_" ++ req.booking_id ++ "_" ++ Nat.repr now
    amount := req.amount
    description := req.description.getD "Event Booking"
    customer_email := req.customer_email }

/-- Provider's success response for invoice creation: the fields the
handler reads (`response.data.invoice_url`, `response.data.id`). -/
structure XenditInvoice where
  invoice_url : String
  id : String
deriving Repr, DecidableEq

/-- Response of `POST /create-checkout-session`: 200 with
`{data:{attributes:{checkout_url, invoice_id}}}` on success, 500 with
`{error: 'Failed to create invoice'}` on provider failure. -/
inductive CreateResponse where
  | success (checkout_url : String) (invoice_id : String)
  | failure
deriving Repr, DecidableEq

/-- Model of `POST /create-checkout-session` (src/dev-server.js lines 33–87):
builds the payload, posts it to the provider (modelled as a function from
payload to optional invoice; `none` is any thrown/non-2xx failure), and
maps the provider response to the frontend shape. -/
def createCheckoutSession (req : CreateCheckoutRequest) (now : Nat)
    (provider : XenditPayload → Option XenditInvoice) :
    Nat × CreateResponse :=
  match provider (buildXenditPayload req now) with
  | some resp => (200, CreateResponse.success resp.invoice_url resp.id)
  | none => (500, CreateResponse.failure)

/-! ## Helper lemmas -/

/-- A JavaScript split never returns an empty array. -/
lemma jsSplitList_ne_nil (sep : Char) (l : List Char) :
    jsSplitList sep l ≠ [] := by
  cases l with
  | nil => simp [jsSplitList]
  | cons c cs =>
    simp only [jsSplitList]
    by_cases h : c = sep
    · simp [h]
    · simp only [h, if_false]
      cases jsSplitList sep cs <;> simp

/-- Splitting a list that begins with a separator-free segment followed by
the separator yields that segment followed by the split of the rest. -/
lemma jsSplitList_append (sep : Char) (xs ys : List Char)
    (h : sep ∉ xs) :
    jsSplitList sep (xs ++ sep :: ys) = xs :: jsSplitList sep ys := by
  induction xs with
  | nil => simp [jsSplitList]
  | cons c cs ih =>
    have hc : c ≠ sep := fun hc => h (hc ▸ List.mem_cons_self c cs)
    have hcs : sep ∉ cs := fun hm => h (List.mem_cons_of_mem c hm)
    simp only [List.cons_append, jsSplitList, hc, if_false]
    rw [show cs.append (sep :: ys) = cs ++ sep :: ys from rfl, ih hcs]

/-- A list is a `isPrefixOf` of itself followed by anything. -/
lemma isPrefixOf_append_self (xs ys : List Char) :
    xs.isPrefixOf (xs ++ ys) = true := by
  induction xs with
  | nil => simp [List.isPrefixOf]
  | cons c cs ih => simp [List.isPrefixOf, ih]

/-- The two handlers' booking-id extractions are the same function: the
extra `parts.length >= 2` guard in the webhook handler is redundant,
because an out-of-range index already yields a falsy `undefined`. -/
lemma extract_agree (ext : Option String) :
    extractBookingIdWebhook ext = extractBookingIdVerify ext := by
  cases ext with
  | none => rfl
  | some s =>
    simp only [extractBookingIdWebhook, extractBookingIdVerify]
    by_cases h0 : s = ""
    · simp [h0]
    · simp only [h0, if_false]
      by_cases hp : jsStartsWith s "booking_"
      · simp only [hp, if_true]
        by_cases hl : (jsSplit '_' s).length ≥ 2
        · simp [hl]
        · have : (jsSplit '_' s).length ≤ 1 := by omega
          simp [hl, List.getElem?_eq_none this]
      · simp [hp]

/-- Splitting the composite identifier `booking_<id>_<ts>` at underscores,
when `<id>` itself contains no underscore. -/
lemma jsSplit_booking (id ts : String) (h : '_' ∉ id.data) :
    jsSplit '_' ("booking_" ++ id ++ "_" ++ ts)
      = "booking" :: id :: jsSplit '_' ts := by
  have hdata : ("booking_" ++ id ++ "_" ++ ts).data
      = "booking".data ++ '_' :: (id.data ++ '_' :: ts.data) := by
    simp [String.data_append]
  have hb : '_' ∉ "booking".data := by decide
  simp only [jsSplit, hdata, jsSplitList_append '_' _ _ hb,
    jsSplitList_append '_' _ _ h, List.map_cons]

/-- A string of the form `booking_<id>_<ts>` is nonempty and carries the
`booking_` prefix. -/
lemma booking_form_guards (id ts : String) :
    ("booking_" ++ id ++ "_" ++ ts) ≠ "" ∧
    jsStartsWith ("booking_" ++ id ++ "_" ++ ts) "booking_" = true := by
  constructor
  · intro hcontra
    have : ("booking_" ++ id ++ "_" ++ ts).data = [] := by
      rw [hcontra]
    simp [String.data_append] at this
  · have hdata : ("booking_" ++ id ++ "_" ++ ts).data
        = "booking_".data ++ (id.data ++ '_' :: ts.data) := by
      simp [String.data_append]
    simp only [jsStartsWith, hdata, isPrefixOf_append_self]

/-- Any row of an updated store is either an untouched original row or
carries exactly the constant target values. -/
lemma mem_updateBookings (store : List BookingRow) (bid : String)
    (row : BookingRow) (h : row ∈ updateBookings store bid) :
    row ∈ store ∨ (row.payment_status = "Paid" ∧ row.status = "Confirmed") := by
  simp only [updateBookings, List.mem_map] at h
  obtain ⟨r0, hr0, hrow⟩ := h
  by_cases hid : r0.id = bid
  · rw [if_pos hid] at hrow
    right
    rw [← hrow]
    exact ⟨rfl, rfl⟩
  · rw [if_neg hid] at hrow
    left
    rw [← hrow]
    exact hr0

/-- The webhook handler leaves the store unchanged or applies
`updateBookings` for some booking id. -/
lemma webhookHandler_store_shape (e : PaymentEvent) (storeErr : Bool)
    (store : List BookingRow) :
    (webhookHandler e storeErr store).store = store ∨
    ∃ bid, (webhookHandler e storeErr store).store
      = updateBookings store bid := by
  simp only [webhookHandler]
  by_cases hs : e.status = "PAID"
  · simp only [hs, if_true]
    cases extractBookingIdWebhook e.external_id with
    | none => left; rfl
    | some bid =>
      by_cases hb : bid = ""
      · left; simp [hb]
      · cases storeErr
        · right; exact ⟨bid, by simp [hb]⟩
        · left; simp [hb]
  · simp [hs]

/-- The two handlers always leave the same store behind. -/
lemma store_agree (e : PaymentEvent) (storeErr : Bool)
    (store : List BookingRow) :
    (verifyPaymentHandler e storeErr store).store
      = (webhookHandler e storeErr store).store := by
  simp only [verifyPaymentHandler, webhookHandler, extract_agree]
  by_cases hs : e.status = "PAID"
  · simp only [hs, if_true]
    cases extractBookingIdVerify e.external_id with
    | none => rfl
    | some bid => by_cases hb : bid = "" <;> cases storeErr <;> simp [hb]
  · simp [hs]

/-! ## Claim theorems -/

/-- C1, counterexample: a PAID invoice with external identifier
`booking_42_169000` for which the Supabase update returns an error is
answered by the verify-payment handler with HTTP 200 (success), not 500 —
the handler only logs the store error. -/
theorem C1_counterexample :
    (verifyPaymentHandler
        (PaymentEvent.mk "PAID" (some "booking_42_169000") none none none none)
        true [BookingRow.mk "42" "Unpaid" "Pending"]).httpStatus ≠ 500 ∧
    (verifyPaymentHandler
        (PaymentEvent.mk "PAID" (some "booking_42_169000") none none none none)
        true [BookingRow.mk "42" "Unpaid" "Pending"]).httpStatus = 200 := by
  decide

/-- C1 (amended): only the webhook handler surfaces a booking-store update
error as HTTP 500; the manual verify-payment handler merely logs the error
and still responds 200 with the PAID body.  In both handlers the failed
update leaves the store unchanged. -/
theorem C1_store_error_response (e : PaymentEvent) (store : List BookingRow)
    (bid : String) (hs : e.status = "PAID")
    (hb : extractBookingIdWebhook e.external_id = some bid)
    (hbne : bid ≠ "") :
    (webhookHandler e true store).httpStatus = 500 ∧
    (webhookHandler e true store).store = store ∧
    (verifyPaymentHandler e true store).httpStatus = 200 ∧
    (verifyPaymentHandler e true store).body = VerifyBody.paid bid ∧
    (verifyPaymentHandler e true store).store = store := by
  have hv : extractBookingIdVerify e.external_id = some bid :=
    (extract_agree _).symm.trans hb
  simp [webhookHandler, verifyPaymentHandler, hs, hb, hv, hbne]

/-- C1 witness: the error responses at the concrete PAID event with
identifier `booking_42_169000` and an erroring store. -/
theorem C1_store_error_response_witness :
    (webhookHandler
        (PaymentEvent.mk "PAID" (some "booking_42_169000") none none none none)
        true [BookingRow.mk "42" "Unpaid" "Pending"]).httpStatus = 500 ∧
    (webhookHandler
        (PaymentEvent.mk "PAID" (some "booking_42_169000") none none none none)
        true [BookingRow.mk "42" "Unpaid" "Pending"]).store
      = [BookingRow.mk "42" "Unpaid" "Pending"] ∧
    (verifyPaymentHandler
        (PaymentEvent.mk "PAID" (some "booking_42_169000") none none none none)
        true [BookingRow.mk "42" "Unpaid" "Pending"]).httpStatus = 200 ∧
    (verifyPaymentHandler
        (PaymentEvent.mk "PAID" (some "booking_42_169000") none none none none)
        true [BookingRow.mk "42" "Unpaid" "Pending"]).body
      = VerifyBody.paid "42" ∧
    (verifyPaymentHandler
        (PaymentEvent.mk "PAID" (some "booking_42_169000") none none none none)
        true [BookingRow.mk "42" "Unpaid" "Pending"]).store
      = [BookingRow.mk "42" "Unpaid" "Pending"] :=
  C1_store_error_response _ _ "42" rfl (by decide) (by decide)

/-- C6: a PAID webhook event whose external identifier does not resolve to
a (truthy) booking id performs no store mutation, fires the unresolved
log, and is acknowledged with HTTP 200 regardless of the store error
flag. -/
theorem C6_unresolved_webhook_ack (e : PaymentEvent) (storeErr : Bool)
    (store : List BookingRow) (hs : e.status = "PAID")
    (h : extractBookingIdWebhook e.external_id = none ∨
      extractBookingIdWebhook e.external_id = some "") :
    webhookHandler e storeErr store = WebhookOutcome.mk 200 store true := by
  rcases h with h | h <;> simp [webhookHandler, hs, h]

/-- C6 witness: the PAID webhook event with external identifier
`unrecognized` on a one-row store. -/
theorem C6_unresolved_webhook_ack_witness :
    webhookHandler
        (PaymentEvent.mk "PAID" (some "unrecognized") none none none none)
        false [BookingRow.mk "42" "Unpaid" "Pending"]
      = WebhookOutcome.mk 200 [BookingRow.mk "42" "Unpaid" "Pending"] true :=
  C6_unresolved_webhook_ack _ false _ rfl (Or.inl (by decide))

/-- C7: a webhook event whose status is not PAID performs no store
mutation — every booking row is left unchanged — and responds HTTP 200,
without the unresolved log, regardless of the store error flag. -/
theorem C7_non_paid_passthrough (e : PaymentEvent) (storeErr : Bool)
    (store : List BookingRow) (hs : e.status ≠ "PAID") :
    webhookHandler e storeErr store = WebhookOutcome.mk 200 store false := by
  simp [webhookHandler, hs]

/-- C7 witness: the PENDING webhook event with identifier
`booking_42_169000` on a one-row store. -/
theorem C7_non_paid_passthrough_witness :
    webhookHandler
        (PaymentEvent.mk "PENDING" (some "booking_42_169000") none none none none)
        false [BookingRow.mk "42" "Unpaid" "Pending"]
      = WebhookOutcome.mk 200 [BookingRow.mk "42" "Unpaid" "Pending"] false :=
  C7_non_paid_passthrough _ false _ (by decide)

/-- C9: noninterference of event content with written values — any two
PAID events resolving to the same booking id lead both handlers to the
same final store, whatever their other fields (amount, metadata, remarks,
timestamps); and whenever a handler mutates a row, the values written are
exactly the constants `payment_status = Paid`, `status = Confirmed`. -/
theorem C9_noninterference (e1 e2 : PaymentEvent) (storeErr : Bool)
    (store : List BookingRow)
    (h1 : e1.status = "PAID") (h2 : e2.status = "PAID")
    (hid : extractBookingIdWebhook e1.external_id
      = extractBookingIdWebhook e2.external_id) :
    (webhookHandler e1 storeErr store).store
      = (webhookHandler e2 storeErr store).store ∧
    (verifyPaymentHandler e1 storeErr store).store
      = (verifyPaymentHandler e2 storeErr store).store ∧
    (∀ row ∈ (webhookHandler e1 storeErr store).store,
      row ∈ store ∨ (row.payment_status = "Paid" ∧ row.status = "Confirmed")) ∧
    (∀ row ∈ (verifyPaymentHandler e1 storeErr store).store,
      row ∈ store ∨ (row.payment_status = "Paid" ∧ row.status = "Confirmed")) := by
  have hwh : (webhookHandler e1 storeErr store).store
      = (webhookHandler e2 storeErr store).store := by
    simp only [webhookHandler, h1, h2, hid]
  have hmem : ∀ row ∈ (webhookHandler e1 storeErr store).store,
      row ∈ store ∨ (row.payment_status = "Paid" ∧ row.status = "Confirmed") := by
    intro row hrow
    rcases webhookHandler_store_shape e1 storeErr store with hsh | ⟨bid, hsh⟩
    · left; rw [hsh] at hrow; exact hrow
    · rw [hsh] at hrow; exact mem_updateBookings store bid row hrow
  refine ⟨hwh, ?_, hmem, ?_⟩
  · rw [store_agree, store_agree, hwh]
  · rw [store_agree]; exact hmem

/-- C9 witness: two PAID events for booking 42 with different timestamps,
amounts, metadata and remarks yield the same updated store, whose only
row carries the constant values. -/
theorem C9_noninterference_witness :
    (webhookHandler
        (PaymentEvent.mk "PAID" (some "booking_42_169000") none none none none)
        false [BookingRow.mk "42" "Unpaid" "Pending"]).store
      = (webhookHandler
          (PaymentEvent.mk "PAID" (some "booking_42_999999") (some 5000)
            (some "meta") (some "rush") (some 7))
          false [BookingRow.mk "42" "Unpaid" "Pending"]).store ∧
    (verifyPaymentHandler
        (PaymentEvent.mk "PAID" (some "booking_42_169000") none none none none)
        false [BookingRow.mk "42" "Unpaid" "Pending"]).store
      = (verifyPaymentHandler
          (PaymentEvent.mk "PAID" (some "booking_42_999999") (some 5000)
            (some "meta") (some "rush") (some 7))
          false [BookingRow.mk "42" "Unpaid" "Pending"]).store ∧
    (∀ row ∈ (webhookHandler
        (PaymentEvent.mk "PAID" (some "booking_42_169000") none none none none)
        false [BookingRow.mk "42" "Unpaid" "Pending"]).store,
      row ∈ [BookingRow.mk "42" "Unpaid" "Pending"] ∨
        (row.payment_status = "Paid" ∧ row.status = "Confirmed")) ∧
    (∀ row ∈ (verifyPaymentHandler
        (PaymentEvent.mk "PAID" (some "booking_42_169000") none none none none)
        false [BookingRow.mk "42" "Unpaid" "Pending"]).store,
      row ∈ [BookingRow.mk "42" "Unpaid" "Pending"] ∨
        (row.payment_status = "Paid" ∧ row.status = "Confirmed")) :=
  C9_noninterference _ _ false _ rfl rfl (by decide)

/-- C10: an external identifier with the `booking_` prefix but an empty id
segment (so the extraction yields the falsy empty string) is treated as
unresolved by both handlers: no store mutation, HTTP 200 from each, and
the webhook's unresolved log fires — the same terminal outcome as an
unrecognized identifier. -/
theorem C10_empty_id_unresolved (s : String) (a : Option Nat)
    (m r : Option String) (t : Option Nat) (storeErr : Bool)
    (store : List BookingRow)
    (he : extractBookingIdVerify (some s) = some "") :
    (verifyPaymentHandler (PaymentEvent.mk "PAID" (some s) a m r t)
        storeErr store).httpStatus = 200 ∧
    (verifyPaymentHandler (PaymentEvent.mk "PAID" (some s) a m r t)
        storeErr store).store = store ∧
    (webhookHandler (PaymentEvent.mk "PAID" (some s) a m r t)
        storeErr store).httpStatus = 200 ∧
    (webhookHandler (PaymentEvent.mk "PAID" (some s) a m r t)
        storeErr store).store = store ∧
    (webhookHandler (PaymentEvent.mk "PAID" (some s) a m r t)
        storeErr store).loggedUnresolved = true := by
  have hw : extractBookingIdWebhook (some s) = some "" :=
    (extract_agree _).trans he
  simp [verifyPaymentHandler, webhookHandler, he, hw]

/-- C10 witness: the identifier `booking__169000` (empty id segment) on a
one-row store. -/
theorem C10_empty_id_unresolved_witness :
    (verifyPaymentHandler
        (PaymentEvent.mk "PAID" (some "booking__169000") none none none none)
        false [BookingRow.mk "42" "Unpaid" "Pending"]).httpStatus = 200 ∧
    (verifyPaymentHandler
        (PaymentEvent.mk "PAID" (some "booking__169000") none none none none)
        false [BookingRow.mk "42" "Unpaid" "Pending"]).store
      = [BookingRow.mk "42" "Unpaid" "Pending"] ∧
    (webhookHandler
        (PaymentEvent.mk "PAID" (some "booking__169000") none none none none)
        false [BookingRow.mk "42" "Unpaid" "Pending"]).httpStatus = 200 ∧
    (webhookHandler
        (PaymentEvent.mk "PAID" (some "booking__169000") none none none none)
        false [BookingRow.mk "42" "Unpaid" "Pending"]).store
      = [BookingRow.mk "42" "Unpaid" "Pending"] ∧
    (webhookHandler
        (PaymentEvent.mk "PAID" (some "booking__169000") none none none none)
        false [BookingRow.mk "42" "Unpaid" "Pending"]).loggedUnresolved
      = true :=
  C10_empty_id_unresolved "booking__169000" none none none none false _
    (by decide)

/-- C2, counterexample: for the externally assigned id `7_4`, which
contains the delimiter character, the extraction on the identifier
`booking_7_4_169000` does not return `7_4` (it returns `7`, the text up to
the first delimiter). -/
theorem C2_counterexample :
    extractBookingIdVerify (some ("booking_" ++ "7_4" ++ "_" ++ "169000"))
      ≠ some "7_4" := by decide

/-- C2 (amended): for every external identifier of the exact form
`booking_<id>_<ts>` where `<id>` contains no delimiter character `_`, the
booking-id extraction performed in both handlers returns `<id>` exactly
(for ids containing the delimiter it returns only the part before the
first delimiter). -/
theorem C2_extract_returns_id (id ts : String) (h : '_' ∉ id.data) :
    extractBookingIdVerify (some ("booking_" ++ id ++ "_" ++ ts)) = some id ∧
    extractBookingIdWebhook (some ("booking_" ++ id ++ "_" ++ ts)) = some id := by
  obtain ⟨hne, hpre⟩ := booking_form_guards id ts
  have hv : extractBookingIdVerify (some ("booking_" ++ id ++ "_" ++ ts))
      = some id := by
    simp [extractBookingIdVerify, hne, hpre, jsSplit_booking id ts h]
  exact ⟨hv, (extract_agree _).trans hv⟩

/-- C2 witness: the extraction at the concrete identifier
`booking_42_169000` returns `42`. -/
theorem C2_extract_returns_id_witness :
    extractBookingIdVerify (some ("booking_" ++ "42" ++ "_" ++ "169000"))
        = some "42" ∧
    extractBookingIdWebhook (some ("booking_" ++ "42" ++ "_" ++ "169000"))
        = some "42" :=
  C2_extract_returns_id "42" "169000" (by decide)

/-- C3: the manual verify-payment path and the webhook path apply the same
correlation and update logic — for every external identifier the two
handlers extract the same booking id, and on a PAID event the store they
leave behind is identical, whatever the other event fields, the store
contents and the store error flag are. -/
theorem C3_paths_consistent (ext : Option String) (a : Option Nat)
    (m r : Option String) (t : Option Nat) (storeErr : Bool)
    (store : List BookingRow) :
    extractBookingIdVerify ext = extractBookingIdWebhook ext ∧
    (verifyPaymentHandler ⟨"PAID", ext, a, m, r, t⟩ storeErr store).store
      = (webhookHandler ⟨"PAID", ext, a, m, r, t⟩ storeErr store).store := by
  refine ⟨(extract_agree ext).symm, ?_⟩
  simp only [verifyPaymentHandler, webhookHandler, extract_agree ext]
  cases hE : extractBookingIdVerify ext with
  | none => rfl
  | some bid =>
    by_cases hb : bid = "" <;> cases storeErr <;> simp [hb]

/-- C4: the mark-paid-and-confirmed store update is idempotent — applying
it twice with the same booking id yields the same final row state as
applying it once, for every starting store state. -/
theorem C4_update_idempotent (store : List BookingRow) (bid : String) :
    updateBookings (updateBookings store bid) bid
      = updateBookings store bid := by
  induction store with
  | nil => rfl
  | cons row rows ih =>
    simp only [updateBookings, List.map_cons] at ih ⊢
    by_cases h : row.id = bid <;> simp [h, ih]

/-- C5: for every malformed or missing external identifier (absent, empty
string, or lacking the `booking_` prefix) the extraction in both handlers
returns null, and neither handler mutates the store, whatever the event
status and the store error flag. -/
theorem C5_malformed_short_circuits (e : PaymentEvent) (storeErr : Bool)
    (store : List BookingRow)
    (h : ∀ s, e.external_id = some s
      → s = "" ∨ jsStartsWith s "booking_" = false) :
    extractBookingIdVerify e.external_id = none ∧
    extractBookingIdWebhook e.external_id = none ∧
    (verifyPaymentHandler e storeErr store).store = store ∧
    (webhookHandler e storeErr store).store = store := by
  have hv : extractBookingIdVerify e.external_id = none := by
    cases hext : e.external_id with
    | none => rfl
    | some s =>
      by_cases h0 : s = ""
      · simp [extractBookingIdVerify, h0]
      · rcases h s hext with h0' | hp
        · exact absurd h0' h0
        · simp [extractBookingIdVerify, h0, hp]
  have hw : extractBookingIdWebhook e.external_id = none :=
    (extract_agree _).trans hv
  refine ⟨hv, hw, ?_, ?_⟩
  · simp only [verifyPaymentHandler, hv]
    by_cases hs : e.status = "PAID" <;> simp [hs]
  · simp only [webhookHandler, hw]
    by_cases hs : e.status = "PAID" <;> simp [hs]

/-- C5 witness: a PAID event with the unrecognized identifier
`unrecognized` extracts null in both handlers and leaves a one-row store
unchanged. -/
theorem C5_malformed_short_circuits_witness :
    extractBookingIdVerify
        (PaymentEvent.mk "PAID" (some "unrecognized") none none none none).external_id
        = none ∧
    extractBookingIdWebhook
        (PaymentEvent.mk "PAID" (some "unrecognized") none none none none).external_id
        = none ∧
    (verifyPaymentHandler
        (PaymentEvent.mk "PAID" (some "unrecognized") none none none none) false
        [BookingRow.mk "42" "Unpaid" "Pending"]).store
      = [BookingRow.mk "42" "Unpaid" "Pending"] ∧
    (webhookHandler
        (PaymentEvent.mk "PAID" (some "unrecognized") none none none none) false
        [BookingRow.mk "42" "Unpaid" "Pending"]).store
      = [BookingRow.mk "42" "Unpaid" "Pending"] :=
  C5_malformed_short_circuits _ false _
    (by intro s hs; injection hs with h2; subst h2; right; rfl)

/-- Decimal digit characters are digits. -/
lemma digitChar_isDigit (m : Nat) (h : m < 10) :
    (Nat.digitChar m).isDigit = true := by
  interval_cases m <;> decide

/-- Every character produced by the base-10 digit accumulator is a digit,
provided the accumulator already holds only digits. -/
lemma toDigitsCore_isDigit :
    ∀ (fuel n : Nat) (ds : List Char),
      (∀ c ∈ ds, c.isDigit = true) →
      ∀ c ∈ Nat.toDigitsCore 10 fuel n ds, c.isDigit = true := by
  intro fuel
  induction fuel with
  | zero =>
    intro n ds hds
    simpa [Nat.toDigitsCore] using hds
  | succ fuel ih =>
    intro n ds hds c hc
    rw [Nat.toDigitsCore] at hc
    by_cases h0 : n / 10 = 0
    · rw [if_pos h0] at hc
      rcases List.mem_cons.mp hc with h | h
      · rw [h]; exact digitChar_isDigit _ (Nat.mod_lt _ (by decide))
      · exact hds _ h
    · rw [if_neg h0] at hc
      refine ih (n / 10) _ ?_ c hc
      intro c' hc'
      rcases List.mem_cons.mp hc' with h | h
      · rw [h]; exact digitChar_isDigit _ (Nat.mod_lt _ (by decide))
      · exact hds _ h

/-- The base-10 digit accumulator never shrinks a nonempty accumulator to
the empty list. -/
lemma toDigitsCore_ne_nil :
    ∀ (fuel n : Nat) (ds : List Char), ds ≠ [] →
      Nat.toDigitsCore 10 fuel n ds ≠ [] := by
  intro fuel
  induction fuel with
  | zero =>
    intro n ds hds
    simpa [Nat.toDigitsCore] using hds
  | succ fuel ih =>
    intro n ds hds
    rw [Nat.toDigitsCore]
    by_cases h0 : n / 10 = 0
    · rw [if_pos h0]; exact List.cons_ne_nil _ _
    · rw [if_neg h0]; exact ih (n / 10) _ (List.cons_ne_nil _ _)

/-- The decimal representation of a natural number is a nonempty string of
digit characters. -/
lemma repr_digits (n : Nat) :
    (Nat.repr n).data ≠ [] ∧ ∀ c ∈ (Nat.repr n).data, c.isDigit = true := by
  have hdata : (Nat.repr n).data = Nat.toDigitsCore 10 (n + 1) n [] := rfl
  constructor
  · rw [hdata, Nat.toDigitsCore]
    by_cases h0 : n / 10 = 0
    · rw [if_pos h0]; exact List.cons_ne_nil _ _
    · rw [if_neg h0]; exact toDigitsCore_ne_nil n (n / 10) _ (List.cons_ne_nil _ _)
  · rw [hdata]
    exact toDigitsCore_isDigit (n + 1) n [] (by intro c hc; cases hc)

/-- C8: for every invoice-creation request, the external identifier
submitted to the provider is exactly `booking_<booking_id>_<digits>` with
a nonempty digits-only timestamp segment, and on provider success the
endpoint responds 200 with a body populated from the provider's invoice
URL and invoice id. -/
theorem C8_create_checkout (req : CreateCheckoutRequest) (now : Nat)
    (provider : XenditPayload → Option XenditInvoice) (resp : XenditInvoice)
    (hp : provider (buildXenditPayload req now) = some resp) :
    (∃ ts : String,
      (buildXenditPayload req now).external_id
        = "booking_" ++ req.booking_id ++ "_" ++ ts ∧
      ts ≠ "" ∧ ∀ c ∈ ts.data, c.isDigit = true) ∧
    createCheckoutSession req now provider
      = (200, CreateResponse.success resp.invoice_url resp.id) := by
  obtain ⟨hne, hdig⟩ := repr_digits now
  refine ⟨⟨Nat.repr now, rfl, ?_, hdig⟩, ?_⟩
  · intro hcontra
    exact hne (by rw [hcontra])
  · simp [createCheckoutSession, hp]

/-- C8 witness: the concrete request for booking 42 at timestamp 169000
with a provider answering a fixed invoice. -/
theorem C8_create_checkout_witness :
    ((fun p : XenditPayload =>
        if p.external_id = "booking_42_169000"
        then some (XenditInvoice.mk "https://cko.example/i1" "inv_1")
        else none)
      (buildXenditPayload
        (CreateCheckoutRequest.mk "42" 1000 none none "a@b.c") 169000)
      = some (XenditInvoice.mk "https://cko.example/i1" "inv_1")) ∧
    ((∃ ts : String,
      (buildXenditPayload
        (CreateCheckoutRequest.mk "42" 1000 none none "a@b.c") 169000).external_id
        = "booking_" ++ "42" ++ "_" ++ ts ∧
      ts ≠ "" ∧ ∀ c ∈ ts.data, c.isDigit = true) ∧
    createCheckoutSession
        (CreateCheckoutRequest.mk "42" 1000 none none "a@b.c") 169000
        (fun p : XenditPayload =>
          if p.external_id = "booking_42_169000"
          then some (XenditInvoice.mk "https://cko.example/i1" "inv_1")
          else none)
      = (200, CreateResponse.success "https://cko.example/i1" "inv_1")) :=
  ⟨by decide,
   C8_create_checkout (CreateCheckoutRequest.mk "42" 1000 none none "a@b.c")
     169000 _ (XenditInvoice.mk "https://cko.example/i1" "inv_1") (by decide)⟩

end BookingServer
